import Mathlib

/-!
Shallow embedding of the `@synvox/base` HTTP routing and dispatch layer
(`src/index.ts`, `src/path-match.ts`, `src/router.ts`) together with proofs
about its path matching, router composition, response pipeline and
request-scoped memoization.

Strings are kept as Lean `String`; every operation on them is implemented by
structural recursion over the underlying character list so that all
definitions evaluate inside the kernel.
-/

set_option autoImplicit false

deriving instance DecidableEq for Except

namespace SynvoxBase

/-! Errors: a thrown JavaScript error value is modelled by its `message`
together with the optional `statusCode` and `status` fields the dispatcher
inspects.  `createError` mirrors `createError(statusCode, message)` in
`src/index.ts` (the `original` argument is not carried: the dispatcher never
reads it). -/

structure ServerErr where
  message : String
  statusCode : Option Nat
  status : Option Nat
deriving Repr, DecidableEq

def createError (statusCode : Nat) (message : String) : ServerErr :=
  ⟨message, some statusCode, none⟩

/-! Character and string utilities.  `lowerChar` performs ASCII lowercasing,
which is how the case-insensitive `i` regex flag behaves on the ASCII
patterns the router compiles. -/

def lowerChar (c : Char) : Char :=
  if 65 ≤ c.toNat ∧ c.toNat ≤ 90 then Char.ofNat (c.toNat + 32) else c

def lowerStr (s : String) : String :=
  ⟨s.data.map lowerChar⟩

/-- Split a character list on `'/'`, the way `"a/b".split` would. -/
def splitSlash : List Char → List (List Char)
  | [] => [[]]
  | c :: rest =>
    let r := splitSlash rest
    if c = '/' then [] :: r
    else
      match r with
      | s :: tail => (c :: s) :: tail
      | [] => [[c]]

/-- Segments of a path string: `segsOf "/a/b" = ["", "a", "b"]`. -/
def segsOf (s : String) : List String :=
  (splitSlash s.data).map (fun cs => ⟨cs⟩)

def endsSlash (s : String) : Bool :=
  s.data.getLast? = some '/'

/-- Value of a hexadecimal digit, `none` for other characters. -/
def hexVal (c : Char) : Option Nat :=
  if 48 ≤ c.toNat ∧ c.toNat ≤ 57 then some (c.toNat - 48)
  else if 97 ≤ c.toNat ∧ c.toNat ≤ 102 then some (c.toNat - 97 + 10)
  else if 65 ≤ c.toNat ∧ c.toNat ≤ 70 then some (c.toNat - 65 + 10)
  else none

/-- Percent decoding as performed by `decodeURIComponent`, modelled at the
byte level (each `%hh` escape yields one character; multi-byte UTF-8
sequences are not recombined, which is irrelevant here: the development only
relies on which inputs make decoding fail).  A `%` that is not followed by
two hex digits makes the whole decode fail, mirroring the `URIError` that
`decodeURIComponent` throws. -/
def percentDecodeChars : List Char → Option (List Char)
  | [] => some []
  | '%' :: a :: b :: rest =>
    match hexVal a, hexVal b with
    | some ha, some hb =>
      (percentDecodeChars rest).map (fun cs => Char.ofNat (16 * ha + hb) :: cs)
    | _, _ => none
  | '%' :: [_] => none
  | ['%'] => none
  | c :: rest => (percentDecodeChars rest).map (fun cs => c :: cs)

/-- Model of `decodeParam` in `src/path-match.ts`: decode one captured
segment, converting a decoding failure into a 400 error. -/
def decodeParam (param : String) : Except ServerErr String :=
  match percentDecodeChars param.data with
  | some cs => .ok ⟨cs⟩
  | none => .error (createError 400 ("failed to decode param \"" ++ param ++ "\""))

/-! Compiled matchers.  `PathMatch` in `src/path-match.ts` compiles a path
pattern through `path-to-regexp` (v1) with two option sets:

* `routeMatch`  : `sensitive:false, strict:false, end:true` — anchored route
  matching, trailing slash optional;
* `subAppMatch` : `sensitive:false, strict:true, end:false` — prefix
  matching with a `(?=/|$)` boundary lookahead.

The development models the compiled regular expression at the granularity of
path segments: a pattern segment is a literal or a `:name` parameter
(`/([^/]+?)` in the compiled regex, i.e. one nonempty slash-free run).  On
such patterns the non-greedy capture is delimited by the following `/` or
the end anchor, so segment-wise matching coincides with `RegExp.exec`. -/

inductive Tok where
  | lit (s : String)
  | param (name : String)
deriving Repr, DecidableEq

/-- Segment of a pattern, parsed: leading `:` marks a parameter. -/
def segTok (seg : String) : Tok :=
  if seg.data.head? = some ':' then .param ⟨seg.data.drop 1⟩ else .lit seg

/-- Drop a single trailing empty segment (how `strict:false` compilation
discards one trailing slash of the pattern). -/
def dropTrailingEmptySeg (l : List String) : List String :=
  match l.getLast? with
  | some "" => l.dropLast
  | _ => l

/-- Anchored matching (`end:true`, `strict:false`): every pattern token
consumes one pathname segment, literals case-insensitively; a single
trailing empty pathname segment (trailing slash) is tolerated at the end,
from the compiled `(?:/(?=$))?$` suffix. -/
def matchSegsEnd : List Tok → List String → Option (List (String × String))
  | [], [] => some []
  | [], [""] => some []
  | [], _ => none
  | _ :: _, [] => none
  | .lit s :: ts, q :: qs =>
    if lowerStr s = lowerStr q then matchSegsEnd ts qs else none
  | .param n :: ts, q :: qs =>
    if q = "" then none
    else (matchSegsEnd ts qs).map (fun caps => (n, q) :: caps)

/-- Prefix matching (`end:false`): pattern tokens consume an initial run of
pathname segments; the unconsumed remainder is returned (the `(?=/|$)`
boundary is automatic at a segment boundary). -/
def matchSegsPre :
    List Tok → List String → Option (List (String × String) × List String)
  | [], rest => some ([], rest)
  | _ :: _, [] => none
  | .lit s :: ts, q :: qs =>
    if lowerStr s = lowerStr q then matchSegsPre ts qs else none
  | .param n :: ts, q :: qs =>
    if q = "" then none
    else (matchSegsPre ts qs).map (fun r => ((n, q) :: r.1, r.2))

/-- Raw (pre-decoding) result of executing a `routeMatch`-compiled pattern
against a pathname: the ordered captures, or `none` when the regular
expression does not match. -/
def routeExec (pattern pathname : String) : Option (List (String × String)) :=
  matchSegsEnd ((dropTrailingEmptySeg (segsOf pattern)).map segTok)
    (segsOf pathname)

/-- Raw result of executing a `subAppMatch`-compiled pattern against a
pathname.  When the pattern ends in `/`, `strict:true, end:false`
compilation produces a bare prefix regex (`^…/`), so at least one more
segment must follow the consumed prefix; otherwise the boundary lookahead is
a segment boundary. -/
def subAppExec (pattern pathname : String) : Option (List (String × String)) :=
  if endsSlash pattern then
    match matchSegsPre (((segsOf pattern).dropLast).map segTok) (segsOf pathname) with
    | some (caps, rest) => if rest.isEmpty then none else some caps
    | none => none
  else
    (matchSegsPre ((segsOf pattern).map segTok) (segsOf pathname)).map (fun r => r.1)

abbrev Params := List (String × String)

/-- Decode every captured segment in order, propagating the first failure —
the loop body of the matcher returned by `PathMatch` (the `key.repeat`
splitting is not modelled: the router never compiles repeat patterns in this
development). -/
def decodeCaps : List (String × String) → Except ServerErr Params
  | [] => .ok []
  | (n, v) :: rest =>
    match decodeParam v with
    | .error e => .error e
    | .ok d =>
      match decodeCaps rest with
      | .error e => .error e
      | .ok ds => .ok ((n, d) :: ds)

/-- A compiled matcher is determined by its flavor (which option set
compiled it) and the pattern text it was compiled from. -/
inductive MatchSpec where
  | route (pattern : String)
  | subApp (pattern : String)
deriving Repr, DecidableEq

def rawExec : MatchSpec → String → Option (List (String × String))
  | .route pat, pn => routeExec pat pn
  | .subApp pat, pn => subAppExec pat pn

/-- Full behaviour of a compiled matcher on a pathname: `ok none` is the
`false` (no match) return, `ok (some ps)` the params object, `error` a
thrown decode failure. -/
def applyMatch (ms : MatchSpec) (pn : String) : Except ServerErr (Option Params) :=
  match rawExec ms pn with
  | none => .ok none
  | some caps =>
    match decodeCaps caps with
    | .error e => .error e
    | .ok ps => .ok (some ps)

/-! Values returned by handlers.  `JTree` models the JSON-serializable
objects and arrays a handler may return (`typeof obj === 'object'`);
booleans and `Date` values are outside the modelled universe.  `BodyVal`
models the possible contents of `Response.body` plus the bare return values
the dispatcher classifies; `RetVal` additionally has the `undefined`
sentinel and structured `Response` returns. -/

inductive JTree where
  | jnull
  | jnum (n : Int)
  | jstr (s : String)
  | jarr (elems : List JTree)
  | jobj (fields : List (String × JTree))

def escapeJChar (c : Char) : String :=
  if c = '"' then "\\\"" else if c = '\\' then "\\\\" else ⟨[c]⟩

def escapeJ (s : String) : String :=
  String.join (s.data.map escapeJChar)

mutual
/-- Model of `JSON.stringify` on the modelled JSON trees. -/
def jstringify : JTree → String
  | .jnull => "null"
  | .jnum n => toString n
  | .jstr s => "\"" ++ escapeJ s ++ "\""
  | .jarr es => "[" ++ jstringifyArr es ++ "]"
  | .jobj fs => "\x7b" ++ jstringifyObj fs ++ "\x7d"

def jstringifyArr : List JTree → String
  | [] => ""
  | [e] => jstringify e
  | e :: e2 :: rest => jstringify e ++ "," ++ jstringifyArr (e2 :: rest)

def jstringifyObj : List (String × JTree) → String
  | [] => ""
  | [(k, v)] => "\"" ++ escapeJ k ++ "\":" ++ jstringify v
  | (k, v) :: f :: rest =>
    "\"" ++ escapeJ k ++ "\":" ++ jstringify v ++ "," ++ jstringifyObj (f :: rest)
end

inductive BodyVal where
  | nullB
  | strB (s : String)
  | numB (n : Int)
  | objB (j : JTree)
  | bufB (bytes : List Nat)
  | streamB (id : Nat)

/-- Model of the `Response` class of `src/index.ts`. -/
structure RespS where
  body : BodyVal
  statusCode : Nat
  headers : List (String × String)

/-- Model of `reply(body, statusCode, headers)`. -/
def reply (body : BodyVal) (statusCode : Nat) (headers : List (String × String)) : RespS :=
  ⟨body, statusCode, headers⟩

inductive RetVal where
  | undef
  | plain (b : BodyVal)
  | resp (r : RespS)

/-! Requests and the request-scoped getter cache slices the router writes.
`getUrlParams` and `getBasePath` are getters whose values are only ever
injected through `set` by the router; the cache is modelled per request as
the pair of those two slices. -/

structure Req where
  method : String
  url : String
deriving Repr, DecidableEq

/-- Path component of a request target, as `url.parse(req.url).pathname`
extracts it: everything before the query string or fragment. -/
def pathOf (u : String) : String :=
  ⟨u.data.takeWhile (fun c => c ≠ '?' ∧ c ≠ '#')⟩

structure Cache where
  urlParams : Option Params
  basePath : Option String
deriving Repr, DecidableEq

/-! The router.  A handler is either a terminal function or a nested router
(the `setBasePathSymbol` capability probe in `src/router.ts`).  Terminal
handlers receive the request and the current cache and produce a return
value together with a possibly updated cache, or throw. -/

mutual
inductive RHandler where
  | term (f : Req → Cache → Except ServerErr (RetVal × Cache))
  | router (r : RouterObj)

inductive RouterObj where
  | mk (basePath : String) (routes : List RouteE)

inductive RouteE where
  | mk (method : Option String) (path : String) (handler : RHandler) (m : MatchSpec)
end

def RouterObj.basePath : RouterObj → String
  | .mk bp _ => bp

def RouterObj.routes : RouterObj → List RouteE
  | .mk _ rs => rs

def RouteE.method : RouteE → Option String
  | .mk m _ _ _ => m

def RouteE.path : RouteE → String
  | .mk _ p _ _ => p

def RouteE.handler : RouteE → RHandler
  | .mk _ _ h _ => h

def RouteE.mspec : RouteE → MatchSpec
  | .mk _ _ _ m => m

/-- Matcher flavors of the routes, in registration order. -/
def RouterObj.specs (ro : RouterObj) : List MatchSpec :=
  ro.routes.map RouteE.mspec

/-- The `trimTrailing` helper defined inside `setBasePath`. -/
def trimTrailing (s : String) : String :=
  if endsSlash s then ⟨s.data.dropLast⟩ else s

/-- Model of `setBasePath` (`src/router.ts`): store the new base path, then
rewrite every owned route in place.  A route whose handler is itself a
router gets a fresh prefix matcher compiled from `basePath + route.path`,
has its `path` field overwritten with `basePath`, and propagates recursively;
a terminal route gets a fresh anchored matcher compiled from
`trimTrailing(basePath + route.path)` with its `path` field left unchanged. -/
def setBasePathDoc : Unit := ()

mutual
def setBasePathR : RouterObj → String → RouterObj
  | .mk _ routes, bp => .mk bp (setBasePathRoutes bp routes)

def setBasePathRoutes : String → List RouteE → List RouteE
  | _, [] => []
  | bp, .mk m p h _ :: rest =>
    match h with
    | .router r =>
      let newPath := bp ++ p
      .mk m bp (.router (setBasePathR r newPath)) (.subApp newPath)
        :: setBasePathRoutes bp rest
    | .term f =>
      let newPath := bp ++ p
      .mk m p (.term f) (.route (trimTrailing newPath))
        :: setBasePathRoutes bp rest
end

/-- Model of `use(path, handler)` after path defaulting: if the handler is
itself a router its base path is immediately set to `basePath + path`; the
route is registered with no method filter and a prefix matcher compiled
from `basePath + path`. -/
def useR (ro : RouterObj) (path : String) (h : RHandler) : RouterObj :=
  match ro with
  | .mk bp routes =>
    let h2 :=
      match h with
      | .router r => RHandler.router (setBasePathR r (bp ++ path))
      | .term f => RHandler.term f
    .mk bp (routes ++ [.mk none path h2 (.subApp (bp ++ path))])

/-- Model of `addRoute(method, path, handler)`: register a route with an
anchored matcher compiled from `basePath + path`. -/
def addRoute (ro : RouterObj) (method path : String) (h : RHandler) : RouterObj :=
  match ro with
  | .mk bp routes =>
    .mk bp (routes ++ [.mk (some method) path h (.route (bp ++ path))])

/-- The `if (route.method && route.method !== req.method) continue` filter. -/
def methodBlocks (m : Option String) (reqMethod : String) : Bool :=
  match m with
  | none => false
  | some mm => if mm = reqMethod then false else true

def notFoundResp : RespS := ⟨.strB "Not Found", 404, []⟩

/-- Dispatch (`src/router.ts`, the `handler` closure): scan the routes in
registration order, skip on method mismatch, run the matcher on the path
component; on the first match store the params and the base path into the
request-scoped cache and invoke the handler; a thrown matcher error
propagates; if no route matches, produce the 404 reply. -/
def dispatchDoc : Unit := ()

mutual
def handleH : RHandler → Req → Cache → Except ServerErr (RetVal × Cache)
  | .term f, req, c => f req c
  | .router ro, req, c => handleRouter ro req c

def handleRouter : RouterObj → Req → Cache → Except ServerErr (RetVal × Cache)
  | .mk bp routes, req, c => scanRoutes bp routes req c

def scanRoutes : String → List RouteE → Req → Cache → Except ServerErr (RetVal × Cache)
  | _, [], _, c => .ok (.resp notFoundResp, c)
  | bp, .mk m _ h ms :: rest, req, c =>
    if methodBlocks m req.method then scanRoutes bp rest req c
    else
      match applyMatch ms (pathOf req.url) with
      | .error e => .error e
      | .ok none => scanRoutes bp rest req c
      | .ok (some ps) =>
        handleH h req { c with urlParams := some ps, basePath := some bp }
end

/-! The dispatcher (`base` in `src/index.ts`).  The `ServerResponse` is
modelled by its status code, its header table (keyed case-insensitively, as
Node stores headers), and what was handed to `end` / `pipe`. -/

inductive WireBody where
  | empty
  | text (s : String)
  | bytes (bs : List Nat)
deriving Repr, DecidableEq

structure ResState where
  statusCode : Nat
  headers : String → Option String
  sent : Option WireBody
  ended : Bool
  piped : Bool

/-- Fresh `ServerResponse` state: Node defaults the status code to 200. -/
def freshRes : ResState :=
  ⟨200, fun _ => none, none, false, false⟩

def getHeader (res : ResState) (name : String) : Option String :=
  res.headers (lowerStr name)

def setHeader (res : ResState) (name value : String) : ResState :=
  { res with
    headers := fun m => if m = lowerStr name then some value else res.headers m }

/-- UTF-8 byte length of a string, i.e. `Buffer.byteLength`. -/
def utf8Len (s : String) : Nat :=
  s.data.foldl (fun n c => n + c.utf8Size) 0

/-- Status-code selection of the dispatcher error path:
`errorObj.statusCode || errorObj.status || 500` with JavaScript truthiness
(an absent field and `0` are falsy). -/
def jsTruthyNat (v : Option Nat) (dflt : Nat) : Nat :=
  match v with
  | some n => if n = 0 then dflt else n
  | none => dflt

def errStatus (e : ServerErr) : Nat :=
  jsTruthyNat e.statusCode (jsTruthyNat e.status 500)

/-- Body selection of the dispatcher error path:
`statusCode ? errorObj.message : 'Internal Server Error'`, evaluated on the
already-defaulted status code. -/
def errMessage (e : ServerErr) : String :=
  if errStatus e ≠ 0 then e.message else "Internal Server Error"

/-- Normalization step: a non-`Response` return value is wrapped into a
`Response` with status 200 and no extra headers. -/
def normalize (v : RetVal) : RespS :=
  match v with
  | .resp r => r
  | .plain b => ⟨b, 200, []⟩
  | .undef => ⟨.nullB, 200, []⟩

/-- Serialization phase of `base` (lines 72–109 of `src/index.ts`): write
the status code, then classify `response.body` and emit it.  Note that the
`headers` field of the `Response` is never consulted. -/
def writeResp (response : RespS) (res0 : ResState) : ResState :=
  let res := { res0 with statusCode := response.statusCode }
  match response.body with
  | .nullB => { res with ended := true, sent := some .empty }
  | .bufB bs =>
    let res :=
      if (getHeader res "Content-Type").isNone then
        setHeader res "Content-Type" "application/octet-stream"
      else res
    let res := setHeader res "Content-Length" (toString bs.length)
    { res with ended := true, sent := some (.bytes bs) }
  | .streamB _ =>
    let res :=
      if (getHeader res "Content-Type").isNone then
        setHeader res "Content-Type" "application/octet-stream"
      else res
    { res with piped := true }
  | .numB n =>
    let str := jstringify (.jnum n)
    let res :=
      if (getHeader res "Content-Type").isNone then
        setHeader res "Content-Type" "application/json; charset=utf-8"
      else res
    let res := setHeader res "Content-Length" (toString (utf8Len str))
    { res with ended := true, sent := some (.text str) }
  | .objB j =>
    let str := jstringify j
    let res :=
      if (getHeader res "Content-Type").isNone then
        setHeader res "Content-Type" "application/json; charset=utf-8"
      else res
    let res := setHeader res "Content-Length" (toString (utf8Len str))
    { res with ended := true, sent := some (.text str) }
  | .strB s =>
    let res := setHeader res "Content-Length" (toString (utf8Len s))
    { res with ended := true, sent := some (.text s) }

/-- The full dispatcher: invoke the handler; on `undefined` take no action;
on a thrown error build `reply(message, statusCode)` and log the original
error to the diagnostic sink (the returned list); otherwise normalize and
serialize. -/
def baseRun (h : Req → Cache → Except ServerErr (RetVal × Cache))
    (req : Req) (c : Cache) (res : ResState) : ResState × List ServerErr :=
  match h req c with
  | .ok (.undef, _) => (res, [])
  | .ok (v, _) => (writeResp (normalize v) res, [])
  | .error e =>
    (writeResp (reply (.strB (errMessage e)) (errStatus e) []) res, [e])

/-! The getter cache (`createGetter` in `src/index.ts`).  Request identity
is abstracted to a key; the `WeakMap` is an association list in which `set`
prepends (later entries shadow earlier ones, like `WeakMap.set`
overwriting).  A call to the memoized function first consults the map; on a
miss it invokes the compute function and stores the returned value — which
for an async compute function is the still-unsettled promise object,
modelled as the opaque value of type `α` — before anyone can observe the
cache again.  A synchronous throw aborts before the `set` line.  The third
component of the result reports whether the compute function was invoked
during this call. -/

abbrev ReqId := Nat

structure GetterState (α : Type) where
  cache : List (ReqId × α)
deriving DecidableEq

def memoLookup {α : Type} (s : GetterState α) (r : ReqId) : Option α :=
  s.cache.lookup r

def memoCall {α : Type} (handler : ReqId → Except ServerErr α)
    (s : GetterState α) (r : ReqId) :
    Except ServerErr α × GetterState α × Bool :=
  match memoLookup s r with
  | some v => (.ok v, s, false)
  | none =>
    match handler r with
    | .error e => (.error e, s, true)
    | .ok v => (.ok v, ⟨(r, v) :: s.cache⟩, true)

/-- Model of the `set(req, value)` method on a getter. -/
def memoSet {α : Type} (s : GetterState α) (r : ReqId) (v : α) : GetterState α :=
  ⟨(r, v) :: s.cache⟩

/-! Concrete fixtures used by the evaluation theorems below. -/

def reqGet : Req := ⟨"GET", "/"⟩

def termDeep : RHandler := .term (fun _ c => .ok (.plain (.strB "deep"), c))

def termFirst : RHandler := .term (fun _ c => .ok (.plain (.strB "first"), c))

def termLast : RHandler := .term (fun _ c => .ok (.plain (.strB "last"), c))

def termOther : RHandler := .term (fun _ c => .ok (.plain (.strB "other"), c))

/-- Deepest router: `Router()` with `get('/:x', …)`. -/
def deepRouter : RouterObj := addRoute (.mk "" []) "GET" "/:x" termDeep

/-- `Router()` with `use('/sub', deepRouter)`. -/
def mountedApp : RouterObj := useR (.mk "" []) "/sub" (.router deepRouter)

/-- `mountedApp` after one `setBasePath('/pre')`. -/
def appOnce : RouterObj := setBasePathR mountedApp "/pre"

/-- `mountedApp` after a second, identical `setBasePath('/pre')`. -/
def appTwice : RouterObj := setBasePathR appOnce "/pre"

/-- Depth-3 bottom-up chain: `lvlC.use('/c', deepRouter)` is the innermost
mount. -/
def lvlC : RouterObj := useR (.mk "" []) "/c" (.router deepRouter)

def lvlB : RouterObj := useR (.mk "" []) "/b" (.router lvlC)

/-- Depth-4 bottom-up chain: a fresh router mounting `lvlB` at `/a`. -/
def lvlA : RouterObj := useR (.mk "" []) "/a" (.router lvlB)

def routeFirst : RouteE := .mk (some "GET") "/" termFirst (.route "/")

def routeAbc : RouteE := .mk (some "GET") "/abc" termLast (.route "/abc")

def routeWild : RouteE := .mk (some "GET") "/:z" termOther (.route "/:z")

/-- Handler returning `reply(buffer, 200, Content-Type text/plain)`. -/
def replyHeaderHandler : Req → Cache → Except ServerErr (RetVal × Cache) :=
  fun _ c => .ok (.resp (reply (.bufB [104, 105]) 200 [("Content-Type", "text/plain")]), c)

/-! Helper lemmas. -/

/-- Every error thrown by `decodeParam` carries status code 400. -/
theorem decodeParam_error_shape (v : String) (e : ServerErr)
    (h : decodeParam v = .error e) : e.statusCode = some 400 := by
  unfold decodeParam at h
  cases hp : percentDecodeChars v.data with
  | some cs => rw [hp] at h; exact absurd h (by simp)
  | none =>
    rw [hp] at h
    have : createError 400 ("failed to decode param \"" ++ v ++ "\"") = e :=
      Except.error.inj h
    rw [← this]
    rfl

/-- When some captured pair fails to percent-decode, the decoding loop
throws an error with status code 400. -/
theorem decodeCaps_fail_mem (l : List (String × String)) (p : String × String)
    (hp : p ∈ l) (hfail : percentDecodeChars p.2.data = none) :
    ∃ e, decodeCaps l = .error e ∧ e.statusCode = some 400 := by
  induction l with
  | nil => cases hp
  | cons a tail ih =>
    rcases List.mem_cons.mp hp with heq | hmem
    · subst heq
      obtain ⟨n, v⟩ := p
      have hd : decodeParam v =
          .error (createError 400 ("failed to decode param \"" ++ v ++ "\"")) := by
        unfold decodeParam
        rw [hfail]
      exact ⟨createError 400 ("failed to decode param \"" ++ v ++ "\""),
        by simp [decodeCaps, hd], rfl⟩
    · obtain ⟨n, v⟩ := a
      cases hdp : decodeParam v with
      | error e =>
        exact ⟨e, by simp [decodeCaps, hdp], decodeParam_error_shape _ _ hdp⟩
      | ok d =>
        obtain ⟨e, he, hs⟩ := ih hmem
        exact ⟨e, by simp [decodeCaps, hdp, he], hs⟩

theorem lower_ct : lowerStr "Content-Type" = "content-type" := rfl

theorem lower_cl : lowerStr "Content-Length" = "content-length" := rfl

theorem ct_ne_cl : ("content-type" : String) ≠ "content-length" := by decide

theorem cl_ne_ct : ("content-length" : String) ≠ "content-type" := by decide

/-! Claim theorems. -/

/-- C1 (counterexample): a handler throwing a plain error with no
`statusCode` and no `status` makes the dispatcher answer 500 with the
error's own message `"Test Error"` on the wire — not the generic
`"Internal Server Error"` body the claim requires. -/
theorem c1_plain_error_message_leaks :
    ((baseRun (fun _ _ => .error ⟨"Test Error", none, none⟩) reqGet ⟨none, none⟩ freshRes).1.sent
      = some (.text "Test Error")) ∧
    ((baseRun (fun _ _ => .error ⟨"Test Error", none, none⟩) reqGet ⟨none, none⟩ freshRes).1.statusCode
      = 500) ∧
    "Test Error" ≠ "Internal Server Error" :=
  ⟨rfl, rfl, by decide⟩

/-- C1 (amended): for every request whose handler invocation throws an error
with no `statusCode` and no `status` field, the dispatcher responds with
status 500 and with the thrown error's own message as the body (the
`'Internal Server Error'` replacement is dead code because the defaulted
status code is always truthy), and the original error is logged to the
diagnostic sink. -/
theorem c1_unstatused_error_response
    (h : Req → Cache → Except ServerErr (RetVal × Cache))
    (req : Req) (c : Cache) (res : ResState) (e : ServerErr)
    (hthrow : h req c = .error e)
    (h1 : e.statusCode = none) (h2 : e.status = none) :
    (baseRun h req c res).1.statusCode = 500 ∧
    (baseRun h req c res).1.sent = some (.text e.message) ∧
    (baseRun h req c res).2 = [e] := by
  have hs : errStatus e = 500 := by simp [errStatus, jsTruthyNat, h1, h2]
  have hm : errMessage e = e.message := by simp [errMessage, hs]
  simp [baseRun, hthrow, hs, hm, reply, writeResp, setHeader]

/-- Witness for C1 (amended) at a concrete thrown error. -/
theorem c1_unstatused_error_response_witness :
    ((fun (_ : Req) (_ : Cache) =>
        (Except.error ⟨"boom", none, none⟩ : Except ServerErr (RetVal × Cache)))
      reqGet ⟨none, none⟩ = .error ⟨"boom", none, none⟩) ∧
    ((baseRun (fun _ _ => .error ⟨"boom", none, none⟩) reqGet ⟨none, none⟩ freshRes).1.statusCode = 500 ∧
     (baseRun (fun _ _ => .error ⟨"boom", none, none⟩) reqGet ⟨none, none⟩ freshRes).1.sent
        = some (.text "boom") ∧
     (baseRun (fun _ _ => .error ⟨"boom", none, none⟩) reqGet ⟨none, none⟩ freshRes).2
        = [⟨"boom", none, none⟩]) :=
  ⟨rfl, c1_unstatused_error_response _ reqGet ⟨none, none⟩ freshRes ⟨"boom", none, none⟩ rfl rfl rfl⟩

/-- C2: calling `setBasePath('/pre')` twice on a router holding a mounted
sub-router is not idempotent — the first call overwrites the mount's stored
path with the base path, so the second call compiles the mount matcher from
`'/pre' + '/pre'` instead of `'/pre' + '/sub'`, and a request that was
dispatched to the nested route after one call gets 404 after two. -/
theorem c2_setBasePath_not_idempotent :
    appOnce.specs = [.subApp "/pre/sub"] ∧
    appTwice.specs = [.subApp "/pre/pre"] ∧
    appTwice.specs ≠ appOnce.specs ∧
    applyMatch (.subApp "/pre/sub") "/pre/sub/7" = .ok (some []) ∧
    applyMatch (.subApp "/pre/pre") "/pre/sub/7" = .ok none ∧
    handleRouter appOnce ⟨"GET", "/pre/sub/7"⟩ ⟨none, none⟩ =
      .ok (.plain (.strB "deep"), ⟨some [("x", "7")], some "/pre/sub"⟩) ∧
    handleRouter appTwice ⟨"GET", "/pre/sub/7"⟩ ⟨none, none⟩ =
      .ok (.resp notFoundResp, ⟨none, none⟩) :=
  ⟨by decide, by decide, by decide, by decide, by decide, rfl, rfl⟩

/-- C3: router dispatch invokes exactly the first registered route whose
method filter passes and whose matcher accepts the path component, after
storing the matched params and the router's base path in the request-scoped
cache; the result does not depend on any later route. -/
theorem c3_first_match_wins (bp : String) (req : Req) (c : Cache) (ps : Params)
    (pre : List RouteE) (r : RouteE) (post : List RouteE)
    (hpre : ∀ r2 ∈ pre, methodBlocks r2.method req.method = true ∨
      applyMatch r2.mspec (pathOf req.url) = .ok none)
    (hm : methodBlocks r.method req.method = false)
    (hmatch : applyMatch r.mspec (pathOf req.url) = .ok (some ps)) :
    handleRouter (.mk bp (pre ++ r :: post)) req c =
      handleH r.handler req { c with urlParams := some ps, basePath := some bp } := by
  induction pre with
  | nil =>
    cases r with
    | mk m p h ms =>
      simp only [RouteE.method] at hm
      simp only [RouteE.mspec] at hmatch
      simp [handleRouter, scanRoutes, hm, hmatch, RouteE.handler]
  | cons a pre ih =>
    have ha := hpre a (List.mem_cons_self a pre)
    have hpre2 : ∀ r2 ∈ pre, methodBlocks r2.method req.method = true ∨
        applyMatch r2.mspec (pathOf req.url) = .ok none :=
      fun r2 h2 => hpre r2 (List.mem_cons_of_mem a h2)
    have ih2 := ih hpre2
    cases a with
    | mk m2 p2 h2 ms2 =>
      simp only [RouteE.method, RouteE.mspec] at ha
      simp only [handleRouter, List.cons_append, scanRoutes] at ih2 ⊢
      rcases ha with hb | hn
      · simp [hb, ih2]
      · simp [hn, ih2]

/-- Witness for C3 at a concrete route table: `GET /` registered first,
`GET /abc` second, `GET /:z` third; requesting `GET /abc` invokes the
second route with empty params and base path stored in the cache. -/
theorem c3_first_match_wins_witness :
    (∀ r2 ∈ [routeFirst], methodBlocks r2.method "GET" = true ∨
      applyMatch r2.mspec (pathOf "/abc") = .ok none) ∧
    methodBlocks routeAbc.method "GET" = false ∧
    applyMatch routeAbc.mspec (pathOf "/abc") = .ok (some []) ∧
    handleRouter (.mk "" ([routeFirst] ++ routeAbc :: [routeWild])) ⟨"GET", "/abc"⟩ ⟨none, none⟩ =
      handleH routeAbc.handler ⟨"GET", "/abc"⟩ ⟨some [], some ""⟩ :=
  ⟨by decide, by decide, by decide,
    c3_first_match_wins "" ⟨"GET", "/abc"⟩ ⟨none, none⟩ [] [routeFirst] routeAbc [routeWild]
      (by decide) (by decide) (by decide)⟩

/-- C4: dispatch through a depth-3 chain of routers built bottom-up works
(`GET /b/c/9` reaches `/:x` with `x = 9`), but the same construction one
level deeper — mounting that chain at `/a` — makes the deep route
unreachable: `GET /a/b/c/9` yields the 404 reply because the first
`setBasePath` overwrote the intermediate mount's declared path. -/
theorem c4_depth4_nesting_unreachable :
    handleRouter lvlB ⟨"GET", "/b/c/9"⟩ ⟨none, none⟩ =
      .ok (.plain (.strB "deep"), ⟨some [("x", "9")], some "/b/c"⟩) ∧
    handleRouter lvlA ⟨"GET", "/a/b/c/9"⟩ ⟨none, none⟩ =
      .ok (.resp notFoundResp, ⟨some [], some "/a"⟩) :=
  ⟨rfl, rfl⟩

/-- C5: on a cache miss the memoized getter invokes the compute function
once and stores the returned value (for an async compute function, the
still-unsettled promise object) synchronously; a second call for the same
request returns that same stored value without invoking the compute
function again and leaves the cache unchanged. -/
theorem c5_getter_memoizes {α : Type} (h : ReqId → Except ServerErr α)
    (s : GetterState α) (r : ReqId) (v : α)
    (hfresh : memoLookup s r = none) (hcompute : h r = .ok v) :
    (memoCall h s r).1 = .ok v ∧
    (memoCall h s r).2.2 = true ∧
    (memoCall h (memoCall h s r).2.1 r).1 = .ok v ∧
    (memoCall h (memoCall h s r).2.1 r).2.2 = false ∧
    (memoCall h (memoCall h s r).2.1 r).2.1 = (memoCall h s r).2.1 := by
  have hf : List.lookup r s.cache = none := hfresh
  simp [memoCall, memoLookup, hf, hcompute, List.lookup]

/-- Witness for C5 at a concrete getter. -/
theorem c5_getter_memoizes_witness :
    memoLookup (⟨[]⟩ : GetterState Nat) 0 = none ∧
    ((fun (_ : ReqId) => (Except.ok 42 : Except ServerErr Nat)) 0 = .ok 42) ∧
    ((memoCall (fun _ => .ok 42) (⟨[]⟩ : GetterState Nat) 0).1 = .ok 42 ∧
     (memoCall (fun _ => .ok 42) (⟨[]⟩ : GetterState Nat) 0).2.2 = true ∧
     (memoCall (fun _ => .ok 42)
        (memoCall (fun _ => .ok 42) (⟨[]⟩ : GetterState Nat) 0).2.1 0).1 = .ok 42 ∧
     (memoCall (fun _ => .ok 42)
        (memoCall (fun _ => .ok 42) (⟨[]⟩ : GetterState Nat) 0).2.1 0).2.2 = false ∧
     (memoCall (fun _ => .ok 42)
        (memoCall (fun _ => .ok 42) (⟨[]⟩ : GetterState Nat) 0).2.1 0).2.1 =
       (memoCall (fun _ => .ok 42) (⟨[]⟩ : GetterState Nat) 0).2.1) :=
  ⟨rfl, rfl, c5_getter_memoizes (fun _ => .ok 42) ⟨[]⟩ 0 42 rfl rfl⟩

/-- C6: if the pattern part of a compiled matcher succeeds but
percent-decoding of a captured pair fails, the match attempt throws an
error with status 400 rather than returning no-match, while a pathname that
merely fails the pattern yields the no-match result without any error. -/
theorem c6_decode_failure_throws_400 (ms : MatchSpec) (pn : String) :
    (rawExec ms pn = none → applyMatch ms pn = .ok none) ∧
    (∀ caps nv, rawExec ms pn = some caps → nv ∈ caps →
      percentDecodeChars nv.2.data = none →
      ∃ e, applyMatch ms pn = .error e ∧ e.statusCode = some 400) := by
  constructor
  · intro hnone
    simp [applyMatch, hnone]
  · intro caps nv hexec hmem hfail
    obtain ⟨e, he, hs⟩ := decodeCaps_fail_mem caps nv hmem hfail
    exact ⟨e, by simp [applyMatch, hexec, he], hs⟩

/-- Witness for C6: `/:x` does not match `/abc/d` (soft no-match), and on
`/%zz` the capture `%zz` fails to decode so the matcher throws a 400. -/
theorem c6_decode_failure_throws_400_witness :
    applyMatch (.route "/:x") "/abc/d" = .ok none ∧
    ∃ e, applyMatch (.route "/:x") "/%zz" = .error e ∧ e.statusCode = some 400 :=
  ⟨(c6_decode_failure_throws_400 (.route "/:x") "/abc/d").1 rfl,
   (c6_decode_failure_throws_400 (.route "/:x") "/%zz").2 [("x", "%zz")] ("x", "%zz")
     rfl (by decide) rfl⟩

/-- C7: a non-`Response`, non-`undefined` return value is wrapped with
status 200 and no extra headers, and the body is classified: `null` ends
the response empty with no headers touched; a buffer is sent with
`Content-Type: application/octet-stream` (when unset) and `Content-Length`
equal to its byte count; a number or JSON object is serialized to JSON text
with `Content-Type: application/json; charset=utf-8` (when unset); a string
is sent as-is; in each non-stream, non-null case `Content-Length` equals
the UTF-8 byte length of the final serialized text. -/
theorem c7_response_classification (b : BodyVal) (res : ResState) :
    (normalize (.plain b)).statusCode = 200 ∧
    (normalize (.plain b)).headers = [] ∧
    (writeResp (normalize (.plain b)) res).statusCode = 200 ∧
    (match b with
     | .nullB =>
       writeResp (normalize (.plain .nullB)) res =
         { res with statusCode := 200, ended := true, sent := some .empty }
     | .bufB bs =>
       (writeResp (normalize (.plain (.bufB bs))) res).sent = some (.bytes bs) ∧
       getHeader (writeResp (normalize (.plain (.bufB bs))) res) "Content-Length" =
         some (toString bs.length) ∧
       getHeader (writeResp (normalize (.plain (.bufB bs))) res) "Content-Type" =
         some ((getHeader res "Content-Type").getD "application/octet-stream")
     | .numB n =>
       (writeResp (normalize (.plain (.numB n))) res).sent =
         some (.text (jstringify (.jnum n))) ∧
       getHeader (writeResp (normalize (.plain (.numB n))) res) "Content-Length" =
         some (toString (utf8Len (jstringify (.jnum n)))) ∧
       getHeader (writeResp (normalize (.plain (.numB n))) res) "Content-Type" =
         some ((getHeader res "Content-Type").getD "application/json; charset=utf-8")
     | .objB j =>
       (writeResp (normalize (.plain (.objB j))) res).sent =
         some (.text (jstringify j)) ∧
       getHeader (writeResp (normalize (.plain (.objB j))) res) "Content-Length" =
         some (toString (utf8Len (jstringify j))) ∧
       getHeader (writeResp (normalize (.plain (.objB j))) res) "Content-Type" =
         some ((getHeader res "Content-Type").getD "application/json; charset=utf-8")
     | .strB s =>
       (writeResp (normalize (.plain (.strB s))) res).sent = some (.text s) ∧
       getHeader (writeResp (normalize (.plain (.strB s))) res) "Content-Length" =
         some (toString (utf8Len s)) ∧
       getHeader (writeResp (normalize (.plain (.strB s))) res) "Content-Type" =
         getHeader res "Content-Type"
     | .streamB i =>
       (writeResp (normalize (.plain (.streamB i))) res).piped = true ∧
       (writeResp (normalize (.plain (.streamB i))) res).sent = res.sent ∧
       getHeader (writeResp (normalize (.plain (.streamB i))) res) "Content-Length" =
         getHeader res "Content-Length" ∧
       getHeader (writeResp (normalize (.plain (.streamB i))) res) "Content-Type" =
         some ((getHeader res "Content-Type").getD "application/octet-stream")) := by
  refine ⟨rfl, rfl, ?_, ?_⟩
  · cases b <;> cases hct : res.headers "content-type" <;>
      simp [writeResp, normalize, getHeader, setHeader, lower_ct, lower_cl, hct]
  · cases b <;> cases hct : res.headers "content-type" <;>
      simp [writeResp, normalize, getHeader, setHeader, lower_ct, lower_cl, hct,
        ct_ne_cl, cl_ne_ct]

/-- C8 (counterexample): `use('/a', handler)` with a terminal handler
registers a prefix matcher, not an anchored one — the compiled matcher also
accepts the strictly longer pathname `/a/b`. -/
theorem c8_use_matcher_not_anchored :
    (useR (.mk "" []) "/a" termFirst).specs = [.subApp "/a"] ∧
    ((useR (.mk "" []) "/a" termFirst).routes.map RouteE.method) = [none] ∧
    applyMatch (.subApp "/a") "/a/b" = .ok (some []) :=
  ⟨by decide, by decide, by decide⟩

/-- C8 (amended): `use(path, handler)` with a non-router handler registers
a route with no method filter (matching any request method) and a prefix
matcher — the `subAppMatch` flavor compiled from `basePath + path` — not an
anchored route matcher. -/
theorem c8_use_registers_prefix_mount (bp path : String) (routes : List RouteE)
    (f : Req → Cache → Except ServerErr (RetVal × Cache)) :
    useR (.mk bp routes) path (.term f) =
      .mk bp (routes ++ [.mk none path (.term f) (.subApp (bp ++ path))]) := rfl

/-- C9: headers supplied through `reply(body, statusCode, headers)` never
reach the wire — a handler replying with a buffer and an explicit
`Content-Type: text/plain` still produces `application/octet-stream` on the
response, because the dispatcher never writes `response.headers`. -/
theorem c9_reply_headers_dropped :
    getHeader (baseRun replyHeaderHandler reqGet ⟨none, none⟩ freshRes).1 "Content-Type"
      = some "application/octet-stream" ∧
    getHeader (baseRun replyHeaderHandler reqGet ⟨none, none⟩ freshRes).1 "Content-Length"
      = some "2" ∧
    (baseRun replyHeaderHandler reqGet ⟨none, none⟩ freshRes).1.statusCode = 200 :=
  ⟨by decide, by decide, rfl⟩

/-- C10: a synchronous throw from the compute function is not cached — the
call reports the error, leaves the cache unchanged, and a later call
invokes the compute function again — while a returned (possibly
later-failing) asynchronous computation is cached: the stored value is
returned to every later call without re-invoking the compute function. -/
theorem c10_getter_error_memoization {α : Type}
    (hthrow hok : ReqId → Except ServerErr α)
    (s : GetterState α) (r : ReqId) (e : ServerErr) (v : α)
    (hfresh : memoLookup s r = none)
    (hth : hthrow r = .error e) (hko : hok r = .ok v) :
    (memoCall hthrow s r).1 = .error e ∧
    (memoCall hthrow s r).2.1 = s ∧
    (memoCall hthrow s r).2.2 = true ∧
    (memoCall hthrow (memoCall hthrow s r).2.1 r).2.2 = true ∧
    memoLookup (memoCall hok s r).2.1 r = some v ∧
    (memoCall hok (memoCall hok s r).2.1 r).1 = .ok v ∧
    (memoCall hok (memoCall hok s r).2.1 r).2.2 = false := by
  have hf : List.lookup r s.cache = none := hfresh
  simp [memoCall, memoLookup, hf, hth, hko, List.lookup]

/-- Witness for C10 at concrete compute functions. -/
theorem c10_getter_error_memoization_witness :
    memoLookup (⟨[]⟩ : GetterState Nat) 0 = none ∧
    ((fun (_ : ReqId) => (Except.error ⟨"sync", none, none⟩ : Except ServerErr Nat)) 0
      = .error ⟨"sync", none, none⟩) ∧
    ((fun (_ : ReqId) => (Except.ok 7 : Except ServerErr Nat)) 0 = .ok 7) ∧
    ((memoCall (fun _ => .error ⟨"sync", none, none⟩) (⟨[]⟩ : GetterState Nat) 0).1
        = .error ⟨"sync", none, none⟩ ∧
     (memoCall (fun _ => .error ⟨"sync", none, none⟩) (⟨[]⟩ : GetterState Nat) 0).2.1 = ⟨[]⟩ ∧
     (memoCall (fun _ => .error ⟨"sync", none, none⟩) (⟨[]⟩ : GetterState Nat) 0).2.2 = true ∧
     (memoCall (fun _ => .error ⟨"sync", none, none⟩)
        (memoCall (fun _ => .error ⟨"sync", none, none⟩) (⟨[]⟩ : GetterState Nat) 0).2.1 0).2.2
        = true ∧
     memoLookup (memoCall (fun _ => .ok 7) (⟨[]⟩ : GetterState Nat) 0).2.1 0 = some 7 ∧
     (memoCall (fun _ => .ok 7)
        (memoCall (fun _ => .ok 7) (⟨[]⟩ : GetterState Nat) 0).2.1 0).1 = .ok 7 ∧
     (memoCall (fun _ => .ok 7)
        (memoCall (fun _ => .ok 7) (⟨[]⟩ : GetterState Nat) 0).2.1 0).2.2 = false) :=
  ⟨rfl, rfl, rfl,
    c10_getter_error_memoization (fun _ => .error ⟨"sync", none, none⟩) (fun _ => .ok 7)
      ⟨[]⟩ 0 ⟨"sync", none, none⟩ 7 rfl rfl rfl⟩

end SynvoxBase
